import Mathlib

/-!
Verification of the Office Location Planner commute engine.

Shallow embedding of `src/src/app/page.tsx`: the CSV roster parsing
(`handleFileUpload`), the geocoding loop (`geocodeEmployees`), the
recomputation pipeline (`calculateCommuteTimes`) and the centroid optimizer
(`calculateOptimalLocation`). Network calls are modelled by explicit response
values (a `FetchResult` per call); React component state that the pipeline
writes is modelled as an explicit `CommuteState` record threaded through the
functions. JavaScript numbers are modelled as rationals, `null`/`undefined`
as `Option`, and JavaScript truthiness tests are modelled by dedicated
helpers so that the zero/empty-string cases stay faithful to the source.
-/

namespace OfficePlanner

/-- JS truthiness of an optional numeric field: `undefined` and `0` are falsy
(NaN is not representable in the rational model). -/
def jsTruthyNum : Option ℚ → Bool
  | none => false
  | some v => v != 0

/-- JS truthiness of an optional string: `undefined` and the empty string are
falsy. -/
def jsTruthyStr : Option String → Bool
  | none => false
  | some s => s != ""

/-- JS `a || b` where `a` is an optional string and `b` a string default. -/
def jsOrStr (a : Option String) (b : String) : String :=
  match a with
  | none => b
  | some s => if s = "" then b else s

/-- JS `a || undefined` where `a` is an optional string. -/
def jsOrUndef (a : Option String) : Option String :=
  match a with
  | none => none
  | some s => if s = "" then none else some s

/-- JS `Math.round`: round half away from negative infinity. -/
def jsRound (q : ℚ) : ℤ := ⌊q + 1 / 2⌋

/-- Helper for `jsSplit`: walk the characters, cutting at each separator. -/
def jsSplitAux (sep : Char) : List Char → List Char → List (List Char)
  | [], acc => [acc.reverse]
  | c :: rest, acc =>
    if c = sep then acc.reverse :: jsSplitAux sep rest []
    else jsSplitAux sep rest (c :: acc)

/-- JS `String.prototype.split` with a one-character separator: always returns
at least one piece, and a trailing separator yields a trailing empty piece. -/
def jsSplit (sep : Char) (s : String) : List String :=
  (jsSplitAux sep s.data []).map List.asString

/-- JS `String.prototype.trim`: strip whitespace from both ends. -/
def jsTrim (s : String) : String :=
  ((s.data.dropWhile Char.isWhitespace).reverse.dropWhile Char.isWhitespace).reverse.asString

/-- An employee row, from `interface Employee` in page.tsx. The `lat`/`lng`
fields mirror the `coordinates` pair of the source (which stores the same two
numbers again) and are `none` until geocoding succeeds; likewise the client
office fields. -/
structure Employee where
  id : Nat
  address : String
  name : String
  lat : Option ℚ := none
  lng : Option ℚ := none
  clientOfficeAddress : Option String := none
  clientOfficeLat : Option ℚ := none
  clientOfficeLng : Option ℚ := none
deriving DecidableEq

/-- Per-employee commute record, from `interface CommuteData extends Employee`
in page.tsx; every commute field starts out `null`. -/
structure CommuteData extends Employee where
  drivingDuration : Option ℚ := none
  drivingDistance : Option ℚ := none
  transitDuration : Option ℚ := none
  transitDistance : Option ℚ := none
  transitSteps : Option String := none
  clientDrivingDuration : Option ℚ := none
  clientDrivingDistance : Option ℚ := none
  clientTransitDuration : Option ℚ := none
  clientTransitDistance : Option ℚ := none
  clientTransitSteps : Option String := none
deriving DecidableEq

/-- One CSV cell access `values[i]?.trim()`. -/
def csvField (values : List String) (i : Nat) : Option String :=
  (values.get? i).map jsTrim

/-- The non-blank data rows of the uploaded CSV: `lines.slice(1)` then
`filter(line => line.trim())` (page.tsx lines 396-399). -/
def keptRows (lines : List String) : List String :=
  (lines.drop 1).filter (fun l => jsTrim l != "")

/-- The row parsing of `handleFileUpload` (page.tsx lines 396-408): drop the
header line, keep non-blank lines, split each on commas; the address defaults
to the empty string, an empty name becomes a positional placeholder, and an
empty third field yields no client-office address. -/
def parseEmployees (lines : List String) : List Employee :=
  ((keptRows lines).enum).map (fun p =>
    let values := jsSplit ',' p.2
    { id := p.1
      address := jsOrStr (csvField values 0) ""
      name := jsOrStr (csvField values 1) ("Employee " ++ toString (p.1 + 1))
      clientOfficeAddress := jsOrUndef (csvField values 2) })

/-- Outcome of the up-to-two geocoding calls for one roster row: `none` models
a failed request or an empty `features` array, `some (lng, lat)` the `center`
of the first feature (page.tsx lines 432-487). -/
structure GeocodeOutcome where
  home : Option (ℚ × ℚ)
  client : Option (ℚ × ℚ)
deriving DecidableEq

/-- Body of the `geocodeEmployees` loop for one employee (page.tsx lines
431-489): on home-geocode success the employee is kept with coordinates set,
and the client office is geocoded only when `clientOfficeAddress` is truthy;
on home-geocode failure or error nothing is produced for this employee. -/
def geocodeOne (e : Employee) (o : GeocodeOutcome) : Option Employee :=
  match o.home with
  | none => none
  | some c =>
    let base := { e with lng := some c.1, lat := some c.2 }
    if jsTruthyStr e.clientOfficeAddress then
      match o.client with
      | some cc =>
        some { base with clientOfficeLng := some cc.1, clientOfficeLat := some cc.2 }
      | none => some base
    else some base

/-- The `geocodeEmployees` accumulation loop (page.tsx lines 417-572): each
successfully geocoded employee is pushed onto `geocodedEmployees`, and that
array then replaces the whole roster via `setEmployees`. -/
def geocodeEmployees (rows : List (Employee × GeocodeOutcome)) : List Employee :=
  rows.foldl (fun acc p =>
    match geocodeOne p.1 p.2 with
    | none => acc
    | some e => acc ++ [e]) []

/-- One route of a driving-directions response (duration in seconds, distance
in meters). -/
structure DrivingRoute where
  duration : ℚ
  distance : ℚ
deriving DecidableEq

/-- Body of a driving-directions response; an absent `routes` field behaves
exactly like the empty list under the guard `routes && routes.length > 0`. -/
structure DrivingData where
  routes : List DrivingRoute
deriving DecidableEq

/-- The `transit_details` of one transit step: line names and stop names. -/
structure TransitDetails where
  line_short_name : Option String
  line_name : String
  departure_stop : String
  arrival_stop : String
deriving DecidableEq

/-- One step of a transit leg, tagged with its travel mode. -/
structure TransitStep where
  travel_mode : String
  transit_details : Option TransitDetails
deriving DecidableEq

/-- One leg of a transit itinerary (duration in seconds, distance in meters,
ordered steps). -/
structure TransitLeg where
  duration : ℚ
  distance : ℚ
  steps : List TransitStep
deriving DecidableEq

/-- One transit itinerary: a list of legs. -/
structure TransitRoute where
  legs : List TransitLeg
deriving DecidableEq

/-- Body of a transit-directions response. -/
structure TransitData where
  routes : List TransitRoute
deriving DecidableEq

/-- One network call as the page observes it: `throw` covers fetch failure,
a non-2xx status and JSON errors - everything that lands in a catch block -
and `ok` carries a parsed body. -/
inductive FetchResult (α : Type) where
  | throw
  | ok (data : α)
deriving DecidableEq

/-- The up-to-four service responses one employee receives during one
recomputation request. -/
structure Responses where
  driving : FetchResult DrivingData
  transit : FetchResult TransitData
  clientDriving : FetchResult DrivingData
  clientTransit : FetchResult TransitData

/-- Rendering of one transit step (page.tsx line 159): the short line name
falling back to the full line name, then departure and arrival stops. -/
def renderStep (td : TransitDetails) : String :=
  jsOrStr td.line_short_name td.line_name ++ " (" ++ td.departure_stop ++
    " → " ++ td.arrival_stop ++ ")"

/-- JS `Array.prototype.join(sep)`. -/
def jsJoin (sep : String) : List String → String
  | [] => ""
  | [a] => a
  | a :: rest => a ++ sep ++ jsJoin sep rest

/-- The transit-steps pipeline of page.tsx lines 154-166: keep steps whose
`travel_mode` is `TRANSIT`, map each to its rendered string or `null`, drop
falsy entries with `.filter(Boolean)`, comma-join, then `|| null`. -/
def buildTransitSummary (steps : List TransitStep) : Option String :=
  let mapped := (steps.filter (fun s => s.travel_mode == "TRANSIT")).map
    (fun s => s.transit_details.map renderStep)
  let kept := (mapped.filterMap id).filter (fun x => x != "")
  let joined := jsJoin ", " kept
  if joined = "" then none else some joined

/-- The all-null initial `result` record of page.tsx lines 95-107. -/
def emptyCommute (e : Employee) : CommuteData := { toEmployee := e }

/-- The driving section of page.tsx lines 112-124: when the response carries
at least one route, minutes are rounded and kilometers rounded to tenths. -/
def applyDriving (r : CommuteData) (d : DrivingData) : CommuteData :=
  match d.routes.head? with
  | none => r
  | some route =>
    { r with
      drivingDuration := some ((jsRound (route.duration / 60) : ℤ) : ℚ)
      drivingDistance := some (((jsRound (route.distance / 1000 * 10) : ℤ) : ℚ) / 10) }

/-- The transit section of page.tsx lines 142-167: uses the first leg of the
first itinerary when both exist, and stores the step summary. -/
def applyTransit (r : CommuteData) (t : TransitData) : CommuteData :=
  match t.routes.head? with
  | none => r
  | some route =>
    match route.legs.head? with
    | none => r
    | some leg =>
      { r with
        transitDuration := some ((jsRound (leg.duration / 60) : ℤ) : ℚ)
        transitDistance := some (((jsRound (leg.distance / 1000 * 10) : ℤ) : ℚ) / 10)
        transitSteps := buildTransitSummary leg.steps }

/-- The client-office driving section of page.tsx lines 179-191. -/
def applyClientDriving (r : CommuteData) (d : DrivingData) : CommuteData :=
  match d.routes.head? with
  | none => r
  | some route =>
    { r with
      clientDrivingDuration := some ((jsRound (route.duration / 60) : ℤ) : ℚ)
      clientDrivingDistance := some (((jsRound (route.distance / 1000 * 10) : ℤ) : ℚ) / 10) }

/-- The client-office transit section of page.tsx lines 197-234. -/
def applyClientTransit (r : CommuteData) (t : TransitData) : CommuteData :=
  match t.routes.head? with
  | none => r
  | some route =>
    match route.legs.head? with
    | none => r
    | some leg =>
      { r with
        clientTransitDuration := some ((jsRound (leg.duration / 60) : ℤ) : ℚ)
        clientTransitDistance := some (((jsRound (leg.distance / 1000 * 10) : ℤ) : ℚ) / 10)
        clientTransitSteps := buildTransitSummary leg.steps }

/-- One employee through the body of `calculateCommuteTimes` (page.tsx lines
91-250). The outer catch only ever receives a failure from the driving
section; the transit and client sections each have their own catch, so a
record is always returned and later sections still run after earlier
failures. The client section runs only when both client coordinates are
truthy, mirroring `if (employee.clientOfficeLat && employee.clientOfficeLng)`. -/
def computeEmployee (e : Employee) (resp : Responses) : CommuteData :=
  let r0 := emptyCommute e
  match resp.driving with
  | .throw => r0
  | .ok d =>
    let r1 := applyDriving r0 d
    let r2 := match resp.transit with
      | .throw => r1
      | .ok t => applyTransit r1 t
    if jsTruthyNum e.clientOfficeLat && jsTruthyNum e.clientOfficeLng then
      match resp.clientDriving with
      | .throw => r2
      | .ok cd =>
        let r3 := applyClientDriving r2 cd
        match resp.clientTransit with
        | .throw => r3
        | .ok ct => applyClientTransit r3 ct
    else r2

/-- Coordinate validation filter of page.tsx lines 75-87: both coordinates
defined and within world bounds. -/
def validCoords (e : Employee) : Bool :=
  match e.lat, e.lng with
  | some lat, some lng =>
    decide (-180 ≤ lng) && decide (lng ≤ 180) && decide (-90 ≤ lat) && decide (lat ≤ 90)
  | _, _ => false

/-- `employeesWithCoords` of page.tsx lines 75-87. -/
def employeesWithCoords (employeeList : List Employee) : List Employee :=
  employeeList.filter validCoords

/-- Results with a resolved driving duration (page.tsx line 263). -/
def validDriving (results : List CommuteData) : List CommuteData :=
  results.filter (fun r => r.drivingDuration.isSome)

/-- Results with a resolved transit duration (page.tsx line 272). -/
def validTransit (results : List CommuteData) : List CommuteData :=
  results.filter (fun r => r.transitDuration.isSome)

/-- The driving average of page.tsx lines 263-267: sum of
`r.drivingDuration || 0` over the filtered results, divided by their count,
guarded by a non-empty check. -/
def drivingAverage (results : List CommuteData) : ℚ :=
  let valid := validDriving results
  if valid.length > 0 then
    (valid.foldl (fun sum r => sum + r.drivingDuration.getD 0) 0) / (valid.length : ℚ)
  else 0

/-- The transit average of page.tsx lines 272-276. -/
def transitAverage (results : List CommuteData) : ℚ :=
  let valid := validTransit results
  if valid.length > 0 then
    (valid.foldl (fun sum r => sum + r.transitDuration.getD 0) 0) / (valid.length : ℚ)
  else 0

/-- The component state that `calculateCommuteTimes` writes: `commuteData`,
`averageDrivingCommute` and `averageTransitCommute`. -/
structure CommuteState where
  commuteData : List CommuteData
  averageDrivingCommute : ℤ
  averageTransitCommute : ℤ
deriving DecidableEq

/-- The result list of one recomputation (page.tsx lines 91-257): one record
per employee passing the coordinate filter, each computed from the service
responses of its own calls. -/
def calcResults (employeeList : List Employee) (resp : Nat → Responses) :
    List CommuteData :=
  (employeesWithCoords employeeList).map (fun e => computeEmployee e (resp e.id))

/-- `calculateCommuteTimes` as a transformer of the commute-related component
state (page.tsx lines 58-281): early return on an empty roster, otherwise the
result list and the rounded averages are committed unconditionally once all
awaits finish - there is no generation or staleness check guarding the
`setCommuteData` call on line 260. -/
def calculateCommuteTimes (office : ℚ × ℚ) (employeeList : List Employee)
    (resp : Nat → Responses) (prev : CommuteState) : CommuteState :=
  if employeeList.length = 0 then prev
  else
    let _ := office
    let results := calcResults employeeList resp
    { commuteData := results
      averageDrivingCommute := jsRound (drivingAverage results)
      averageTransitCommute := jsRound (transitAverage results) }

/-- One recomputation trigger: the target office coordinate, the roster
snapshot the invocation receives, and the service responses its calls will
get. -/
structure Request where
  office : ℚ × ℚ
  employeeList : List Employee
  resp : Nat → Responses

/-- Shared state after a set of overlapping recomputations: each invocation
of `calculateCommuteTimes` performs its final synchronous commit when its
awaits finish, so the state updates apply in completion order, with no
staleness guard between them. -/
def runTriggers (completionOrder : List Request) (init : CommuteState) :
    CommuteState :=
  completionOrder.foldl
    (fun st t => calculateCommuteTimes t.office t.employeeList t.resp st) init

/-- The two early-return failures of `calculateOptimalLocation`: an empty
roster, and a roster with no employee coordinates at all. -/
inductive OptError where
  | noEmployees
  | noCoordinates
deriving DecidableEq

/-- `calculateOptimalLocation` (page.tsx lines 626-689): filters to employees
with defined coordinates, then sums latitudes and longitudes under the guard
`if (employee.lat && employee.lng)` - a JS truthiness test, so a zero
latitude or longitude skips that employee from both sums while the divisor
still counts it - and returns `[avgLng, avgLat]`. -/
def calculateOptimalLocation (employees : List Employee) :
    Except OptError (ℚ × ℚ) :=
  if employees.length = 0 then .error .noEmployees
  else
    let withCoords := employees.filter (fun e => e.lat.isSome && e.lng.isSome)
    if withCoords.length = 0 then .error .noCoordinates
    else
      let sums := withCoords.foldl (fun s e =>
        if jsTruthyNum e.lat && jsTruthyNum e.lng then
          (s.1 + e.lat.getD 0, s.2 + e.lng.getD 0)
        else s) ((0 : ℚ), (0 : ℚ))
      .ok (sums.2 / (withCoords.length : ℚ), sums.1 / (withCoords.length : ℚ))

/-- Effect of one optimizer click on the office location: `setOfficeLocation`
runs only on the success path; both early returns alert and leave the office
location untouched. -/
def optimizeStep (employees : List Employee) (office : ℚ × ℚ) : ℚ × ℚ :=
  match calculateOptimalLocation employees with
  | .error _ => office
  | .ok c => c

/-- Spec-side driving mean: the arithmetic mean of `drivingDuration` over
exactly the results where it is resolved. -/
def specDrivingMean (results : List CommuteData) : ℚ :=
  let ds := results.filterMap (fun r => r.drivingDuration)
  ds.sum / (ds.length : ℚ)

/-- Spec-side transit mean: the arithmetic mean of `transitDuration` over
exactly the results where it is resolved. -/
def specTransitMean (results : List CommuteData) : ℚ :=
  let ds := results.filterMap (fun r => r.transitDuration)
  ds.sum / (ds.length : ℚ)

/-!  Shared helper lemmas. -/

theorem foldl_add_eq_sum_map {α : Type} (f : α → ℚ) (l : List α) :
    l.foldl (fun s x => s + f x) 0 = (l.map f).sum := by
  rw [List.sum_eq_foldl, List.foldl_map]

theorem filter_isSome_map_getD {α : Type} (g : α → Option ℚ) (l : List α) :
    (l.filter (fun x => (g x).isSome)).map (fun x => (g x).getD 0) =
      l.filterMap g := by
  induction l with
  | nil => simp
  | cons a l ih =>
    cases h : g a with
    | none => simp [List.filter_cons, List.filterMap_cons, h, ih]
    | some v => simp [List.filter_cons, List.filterMap_cons, h, ih]

theorem validDriving_map_getD (results : List CommuteData) :
    (validDriving results).map (fun r => r.drivingDuration.getD 0) =
      results.filterMap (fun r => r.drivingDuration) :=
  filter_isSome_map_getD (fun r => r.drivingDuration) results

theorem validTransit_map_getD (results : List CommuteData) :
    (validTransit results).map (fun r => r.transitDuration.getD 0) =
      results.filterMap (fun r => r.transitDuration) :=
  filter_isSome_map_getD (fun r => r.transitDuration) results

theorem validDriving_length (results : List CommuteData) :
    (validDriving results).length =
      (results.filterMap (fun r => r.drivingDuration)).length := by
  have h := congrArg List.length (validDriving_map_getD results)
  simpa using h

theorem validTransit_length (results : List CommuteData) :
    (validTransit results).length =
      (results.filterMap (fun r => r.transitDuration)).length := by
  have h := congrArg List.length (validTransit_map_getD results)
  simpa using h

/-!  Claim theorems. -/

/-- C2: for every committed result set, the published driving average is the
arithmetic mean of `drivingDuration` over exactly the results where it is
resolved, and likewise the transit average over resolved `transitDuration`;
unresolved legs are excluded from numerator and denominator alike, and the
valid-leg count is taken separately per field. -/
theorem C2_averages_over_resolved_legs (results : List CommuteData)
    (hd : validDriving results ≠ []) (ht : validTransit results ≠ []) :
    drivingAverage results = specDrivingMean results ∧
      transitAverage results = specTransitMean results := by
  constructor
  · have hlen : 0 < (validDriving results).length := List.length_pos.mpr hd
    rw [drivingAverage, specDrivingMean]
    simp only [if_pos hlen]
    rw [foldl_add_eq_sum_map (fun (r : CommuteData) => r.drivingDuration.getD 0)
      (validDriving results), validDriving_map_getD, validDriving_length]
  · have hlen : 0 < (validTransit results).length := List.length_pos.mpr ht
    rw [transitAverage, specTransitMean]
    simp only [if_pos hlen]
    rw [foldl_add_eq_sum_map (fun (r : CommuteData) => r.transitDuration.getD 0)
      (validTransit results), validTransit_map_getD, validTransit_length]

/-- A result record with both durations resolved, for the C2 witness. -/
def c2DemoResult : CommuteData :=
  { id := 0, address := "1 A St", name := "A",
    drivingDuration := some 12, transitDuration := some 30 }

/-- A result record with both durations unresolved, for the C2 witness. -/
def c2DemoUnresolved : CommuteData :=
  { id := 1, address := "2 B St", name := "B" }

/-- C2 witness: the theorem applied to a concrete result set holding one
resolved and one unresolved record. -/
theorem C2_averages_over_resolved_legs_witness :
    drivingAverage [c2DemoResult, c2DemoUnresolved] =
        specDrivingMean [c2DemoResult, c2DemoUnresolved] ∧
      transitAverage [c2DemoResult, c2DemoUnresolved] =
        specTransitMean [c2DemoResult, c2DemoUnresolved] :=
  C2_averages_over_resolved_legs [c2DemoResult, c2DemoUnresolved]
    (by decide) (by decide)

/-- C4: on a non-empty roster in which no employee has resolved coordinates,
the optimizer fails with the explicit no-coordinates error and the office
location is left unchanged; no default coordinate is substituted. -/
theorem C4_empty_filter_yields_noCoordinates (employees : List Employee)
    (office : ℚ × ℚ) (hne : employees ≠ [])
    (hfilter : employees.filter (fun e => e.lat.isSome && e.lng.isSome) = []) :
    calculateOptimalLocation employees = .error .noCoordinates ∧
      optimizeStep employees office = office := by
  have hlen : employees.length ≠ 0 := by
    simpa [List.length_eq_zero] using hne
  have hcalc : calculateOptimalLocation employees = .error .noCoordinates := by
    rw [calculateOptimalLocation]
    simp [hlen, hfilter]
  exact ⟨hcalc, by rw [optimizeStep, hcalc]⟩

/-- An employee whose home address never geocoded, for the C4 witness. -/
def c4NoCoordEmployee : Employee :=
  { id := 0, address := "nowhere", name := "N" }

/-- C4 witness: the theorem applied to a one-employee roster with no resolved
coordinates. -/
theorem C4_empty_filter_yields_noCoordinates_witness :
    calculateOptimalLocation [c4NoCoordEmployee] = .error .noCoordinates ∧
      optimizeStep [c4NoCoordEmployee] ((0 : ℚ), (0 : ℚ)) = ((0 : ℚ), (0 : ℚ)) :=
  C4_empty_filter_yields_noCoordinates [c4NoCoordEmployee] ((0 : ℚ), (0 : ℚ))
    (by decide) (by decide)

/-- C10: if a committed result set has no resolved driving duration, or no
resolved transit duration, the corresponding published average is `0`: the
division by the valid-leg count only runs under a non-empty guard. -/
theorem C10_no_resolved_legs_average_zero (office : ℚ × ℚ)
    (employeeList : List Employee) (resp : Nat → Responses)
    (prev : CommuteState) (hne : employeeList ≠ []) :
    (validDriving (calculateCommuteTimes office employeeList resp prev).commuteData = [] →
      (calculateCommuteTimes office employeeList resp prev).averageDrivingCommute = 0) ∧
    (validTransit (calculateCommuteTimes office employeeList resp prev).commuteData = [] →
      (calculateCommuteTimes office employeeList resp prev).averageTransitCommute = 0) := by
  have hlen : employeeList.length ≠ 0 := by
    simpa [List.length_eq_zero] using hne
  rw [calculateCommuteTimes]
  simp only [if_neg hlen]
  constructor
  · intro h
    simp only [drivingAverage, h, List.length_nil, gt_iff_lt, lt_irrefl, if_false]
    norm_num [jsRound]
  · intro h
    simp only [transitAverage, h, List.length_nil, gt_iff_lt, lt_irrefl, if_false]
    norm_num [jsRound]

/-- An employee with valid coordinates, for concrete scenarios. -/
def c10Employee : Employee :=
  { id := 0, address := "3 D St", name := "D", lat := some (-34), lng := some 151 }

/-- Responses in which every call fails. -/
def allThrowResponses : Nat → Responses := fun _ =>
  { driving := .throw, transit := .throw, clientDriving := .throw, clientTransit := .throw }

/-- C10 witness: the theorem applied to a one-employee recomputation whose
calls all fail, so no leg resolves. -/
theorem C10_no_resolved_legs_average_zero_witness :
    (validDriving (calculateCommuteTimes ((151 : ℚ), (-33 : ℚ)) [c10Employee]
          allThrowResponses ⟨[], 7, 7⟩).commuteData = [] →
      (calculateCommuteTimes ((151 : ℚ), (-33 : ℚ)) [c10Employee]
          allThrowResponses ⟨[], 7, 7⟩).averageDrivingCommute = 0) ∧
    (validTransit (calculateCommuteTimes ((151 : ℚ), (-33 : ℚ)) [c10Employee]
          allThrowResponses ⟨[], 7, 7⟩).commuteData = [] →
      (calculateCommuteTimes ((151 : ℚ), (-33 : ℚ)) [c10Employee]
          allThrowResponses ⟨[], 7, 7⟩).averageTransitCommute = 0) :=
  C10_no_resolved_legs_average_zero ((151 : ℚ), (-33 : ℚ)) [c10Employee]
    allThrowResponses ⟨[], 7, 7⟩ (by decide)

/-- C9: when every service call of a recomputation over a non-empty roster
fails, the orchestration still commits: the committed list has one fully
unresolved record per coordinate-bearing employee, both averages are `0`, and
the committed state does not depend on the previously committed state - the
previous office location results are replaced, not retained. -/
theorem C9_total_outage_commits_fresh (office : ℚ × ℚ)
    (employeeList : List Employee) (resp : Nat → Responses)
    (prev : CommuteState) (hne : employeeList ≠ [])
    (hfail : ∀ n, resp n = Responses.mk .throw .throw .throw .throw) :
    (calculateCommuteTimes office employeeList resp prev).commuteData =
        (employeesWithCoords employeeList).map emptyCommute ∧
      (∀ r ∈ (calculateCommuteTimes office employeeList resp prev).commuteData,
        r.drivingDuration = none ∧ r.drivingDistance = none ∧
          r.transitDuration = none ∧ r.transitDistance = none ∧
          r.transitSteps = none ∧ r.clientDrivingDuration = none ∧
          r.clientDrivingDistance = none ∧ r.clientTransitDuration = none ∧
          r.clientTransitDistance = none ∧ r.clientTransitSteps = none) ∧
      (calculateCommuteTimes office employeeList resp prev).averageDrivingCommute = 0 ∧
      (calculateCommuteTimes office employeeList resp prev).averageTransitCommute = 0 ∧
      (∀ prev2, calculateCommuteTimes office employeeList resp prev2 =
        calculateCommuteTimes office employeeList resp prev) := by
  have hlen : employeeList.length ≠ 0 := by
    simpa [List.length_eq_zero] using hne
  have hres : calcResults employeeList resp =
      (employeesWithCoords employeeList).map emptyCommute := by
    rw [calcResults]
    refine List.map_congr_left (fun e _ => ?_)
    rw [hfail e.id]
    rfl
  have hvalidD : validDriving (calcResults employeeList resp) = [] := by
    rw [hres, validDriving, List.filter_eq_nil_iff]
    intro a ha
    rcases List.mem_map.mp ha with ⟨x, _, hx⟩
    subst hx
    simp [emptyCommute]
  have hvalidT : validTransit (calcResults employeeList resp) = [] := by
    rw [hres, validTransit, List.filter_eq_nil_iff]
    intro a ha
    rcases List.mem_map.mp ha with ⟨x, _, hx⟩
    subst hx
    simp [emptyCommute]
  rw [calculateCommuteTimes]
  simp only [if_neg hlen]
  refine ⟨hres, ?_, ?_, ?_, ?_⟩
  · intro r hr
    rw [hres] at hr
    rcases List.mem_map.mp hr with ⟨x, _, hx⟩
    subst hx
    simp [emptyCommute]
  · simp only [drivingAverage, hvalidD, List.length_nil, gt_iff_lt, lt_irrefl,
      if_false]
    norm_num [jsRound]
  · simp only [transitAverage, hvalidT, List.length_nil, gt_iff_lt, lt_irrefl,
      if_false]
    norm_num [jsRound]
  · intro prev2
    rw [calculateCommuteTimes]
    simp only [if_neg hlen]

/-- C9 witness: the theorem applied to a one-employee roster under total
outage, starting from a state that held results for a previous office. -/
theorem C9_total_outage_commits_fresh_witness :
    (calculateCommuteTimes ((152 : ℚ), (-34 : ℚ)) [c10Employee]
          allThrowResponses ⟨[c2DemoResult], 12, 30⟩).commuteData =
        (employeesWithCoords [c10Employee]).map emptyCommute ∧
      (∀ r ∈ (calculateCommuteTimes ((152 : ℚ), (-34 : ℚ)) [c10Employee]
          allThrowResponses ⟨[c2DemoResult], 12, 30⟩).commuteData,
        r.drivingDuration = none ∧ r.drivingDistance = none ∧
          r.transitDuration = none ∧ r.transitDistance = none ∧
          r.transitSteps = none ∧ r.clientDrivingDuration = none ∧
          r.clientDrivingDistance = none ∧ r.clientTransitDuration = none ∧
          r.clientTransitDistance = none ∧ r.clientTransitSteps = none) ∧
      (calculateCommuteTimes ((152 : ℚ), (-34 : ℚ)) [c10Employee]
          allThrowResponses ⟨[c2DemoResult], 12, 30⟩).averageDrivingCommute = 0 ∧
      (calculateCommuteTimes ((152 : ℚ), (-34 : ℚ)) [c10Employee]
          allThrowResponses ⟨[c2DemoResult], 12, 30⟩).averageTransitCommute = 0 ∧
      (∀ prev2, calculateCommuteTimes ((152 : ℚ), (-34 : ℚ)) [c10Employee]
          allThrowResponses prev2 =
        calculateCommuteTimes ((152 : ℚ), (-34 : ℚ)) [c10Employee]
          allThrowResponses ⟨[c2DemoResult], 12, 30⟩) :=
  C9_total_outage_commits_fresh ((152 : ℚ), (-34 : ℚ)) [c10Employee]
    allThrowResponses ⟨[c2DemoResult], 12, 30⟩ (by decide) (fun _ => rfl)

/-- The roster snapshot shared by the two overlapping C1 triggers. -/
def c1Employee : Employee :=
  { id := 0, address := "5 E St", name := "E", lat := some (-34), lng := some 151 }

/-- Responses seen by the first-fired trigger: a 600 second drive. -/
def c1RespFirst : Nat → Responses := fun _ =>
  { driving := .ok ⟨[⟨600, 5000⟩]⟩, transit := .throw,
    clientDriving := .throw, clientTransit := .throw }

/-- Responses seen by the second-fired trigger: a 1200 second drive. -/
def c1RespSecond : Nat → Responses := fun _ =>
  { driving := .ok ⟨[⟨1200, 9000⟩]⟩, transit := .throw,
    clientDriving := .throw, clientTransit := .throw }

/-- The first-fired recomputation trigger, targeting one office coordinate. -/
def c1ReqFirst : Request :=
  { office := ((151 : ℚ), (-33 : ℚ)), employeeList := [c1Employee],
    resp := c1RespFirst }

/-- The second-fired recomputation trigger, targeting a distinct coordinate. -/
def c1ReqSecond : Request :=
  { office := ((152 : ℚ), (-34 : ℚ)), employeeList := [c1Employee],
    resp := c1RespSecond }

/-- The shared commute state before either trigger fires. -/
def c1Init : CommuteState := ⟨[], 0, 0⟩

/-- C1 counterexample: fire order is first-then-second with distinct office
coordinates, but the network completes out of order (the second-fired trigger
finishes first). The final shared state holds the result set of the
first-fired - superseded - trigger, not the result set computed for the
last-fired trigger: the source has no generation check, so the superseded
request commits its full result set and overwrites the newer one. -/
theorem C1_counterexample :
    c1ReqFirst.office ≠ c1ReqSecond.office ∧
      (runTriggers [c1ReqSecond, c1ReqFirst] c1Init).commuteData =
        calcResults c1ReqFirst.employeeList c1ReqFirst.resp ∧
      (runTriggers [c1ReqSecond, c1ReqFirst] c1Init).commuteData ≠
        calcResults c1ReqSecond.employeeList c1ReqSecond.resp := by
  refine ⟨by decide, rfl, ?_⟩
  intro h
  have h2 := congrArg (List.map (fun r => r.drivingDuration)) h
  simp only [runTriggers, List.foldl_cons, List.foldl_nil, calculateCommuteTimes,
    calcResults, employeesWithCoords, c1ReqFirst, c1ReqSecond, c1RespFirst,
    c1RespSecond, c1Init, c1Employee, computeEmployee, emptyCommute,
    applyDriving, validCoords, List.filter, List.map] at h2
  norm_num [jsRound] at h2

/-- The state freshly committed by one completed recomputation request with a
non-empty roster snapshot: its result list and the rounded averages. -/
def freshCommit (t : Request) : CommuteState :=
  { commuteData := calcResults t.employeeList t.resp
    averageDrivingCommute := jsRound (drivingAverage (calcResults t.employeeList t.resp))
    averageTransitCommute := jsRound (transitAverage (calcResults t.employeeList t.resp)) }

/-- C1 amended: the source commits every completed recomputation
unconditionally, so commitment is last-to-finish-wins: whatever triggers came
before, the shared state after the final commit equals the fresh commit of
the request that completed last (when its roster snapshot is non-empty),
independent of the initial state and of every earlier commit. -/
theorem C1_amended_last_completion_wins (ts : List Request) (t : Request)
    (init : CommuteState) (h : t.employeeList ≠ []) :
    runTriggers (ts ++ [t]) init = freshCommit t := by
  have hlen : t.employeeList.length ≠ 0 := by
    simpa [List.length_eq_zero] using h
  rw [runTriggers, List.foldl_append, List.foldl_cons, List.foldl_nil,
    calculateCommuteTimes]
  simp only [if_neg hlen]
  rfl

/-- C1 amended witness: the theorem applied to the out-of-order completion
scenario of the counterexample. -/
theorem C1_amended_last_completion_wins_witness :
    runTriggers ([c1ReqSecond] ++ [c1ReqFirst]) c1Init = freshCommit c1ReqFirst :=
  C1_amended_last_completion_wins [c1ReqSecond] c1ReqFirst c1Init (by decide)

/-- The accumulator form of the geocoding loop. -/
theorem geocodeEmployees_foldl_acc (rows : List (Employee × GeocodeOutcome))
    (acc : List Employee) :
    rows.foldl (fun acc p =>
        match geocodeOne p.1 p.2 with
        | none => acc
        | some e => acc ++ [e]) acc =
      acc ++ rows.filterMap (fun p => geocodeOne p.1 p.2) := by
  induction rows generalizing acc with
  | nil => simp
  | cons a l ih =>
    cases h : geocodeOne a.1 a.2 with
    | none => simp [List.foldl_cons, List.filterMap_cons, h, ih]
    | some e => simp [List.foldl_cons, List.filterMap_cons, h, ih]

/-- A two-line CSV whose single data row is one employee without a client
office. -/
def c5Lines : List String := ["address,name,client office", "10 Foo St,Bob,"]

/-- A geocoding outcome in which the home address fails to resolve. -/
def c5FailedGeocode : GeocodeOutcome := { home := none, client := none }

/-- C5 counterexample: one employee is imported from the roster, their home
geocode fails, and the roster that `setEmployees` then stores is empty - the
imported employee is dropped, not kept visible and flagged unresolved. -/
theorem C5_counterexample :
    parseEmployees c5Lines ≠ [] ∧
      geocodeEmployees ((parseEmployees c5Lines).map (fun e => (e, c5FailedGeocode))) = [] := by
  constructor
  · decide
  · decide

/-- C5 amended: after import and geocoding the stored roster consists of
exactly the successfully geocoded employees, in order; an employee whose home
geocode fails contributes nothing to the stored roster, and home-geocode
failure is precisely the one way an employee is dropped. -/
theorem C5_amended_failed_geocodes_dropped
    (rows : List (Employee × GeocodeOutcome)) :
    geocodeEmployees rows = rows.filterMap (fun p => geocodeOne p.1 p.2) ∧
      ∀ e o, (geocodeOne e o = none ↔ o.home = none) := by
  constructor
  · rw [geocodeEmployees]
    simpa using geocodeEmployees_foldl_acc rows []
  · intro e o
    cases ho : o.home with
    | none => simp [geocodeOne, ho]
    | some c =>
      rw [geocodeOne, ho]
      constructor
      · intro h
        by_cases hc : jsTruthyStr e.clientOfficeAddress
        · simp only [hc, if_true] at h
          cases hcl : o.client with
          | none => rw [hcl] at h; exact absurd h (by simp)
          | some cc => rw [hcl] at h; exact absurd h (by simp)
        · simp only [hc, if_false] at h
          exact absurd h (by simp)
      · intro h
        exact absurd h (by simp)

/-- The five client-office fields of a commute record, bundled. -/
def clientFields (r : CommuteData) :
    Option ℚ × Option ℚ × Option ℚ × Option ℚ × Option String :=
  (r.clientDrivingDuration, r.clientDrivingDistance, r.clientTransitDuration,
    r.clientTransitDistance, r.clientTransitSteps)

/-- The three main-office transit fields of a commute record, bundled. -/
def mainTransitFields (r : CommuteData) : Option ℚ × Option ℚ × Option String :=
  (r.transitDuration, r.transitDistance, r.transitSteps)

theorem clientFields_applyDriving (r : CommuteData) (d : DrivingData) :
    clientFields (applyDriving r d) = clientFields r := by
  rcases d with ⟨routes⟩
  cases routes <;> simp [applyDriving, clientFields]

theorem clientFields_applyTransit (r : CommuteData) (t : TransitData) :
    clientFields (applyTransit r t) = clientFields r := by
  rcases t with ⟨routes⟩
  cases routes with
  | nil => simp [applyTransit]
  | cons route rest =>
    rcases route with ⟨legs⟩
    cases legs <;> simp [applyTransit, clientFields]

theorem mainTransitFields_applyDriving (r : CommuteData) (d : DrivingData) :
    mainTransitFields (applyDriving r d) = mainTransitFields r := by
  rcases d with ⟨routes⟩
  cases routes <;> simp [applyDriving, mainTransitFields]

theorem mainTransitFields_applyClientDriving (r : CommuteData) (d : DrivingData) :
    mainTransitFields (applyClientDriving r d) = mainTransitFields r := by
  rcases d with ⟨routes⟩
  cases routes <;> simp [applyClientDriving, mainTransitFields]

theorem mainTransitFields_applyClientTransit (r : CommuteData) (t : TransitData) :
    mainTransitFields (applyClientTransit r t) = mainTransitFields r := by
  rcases t with ⟨routes⟩
  cases routes with
  | nil => simp [applyClientTransit]
  | cons route rest =>
    rcases route with ⟨legs⟩
    cases legs <;> simp [applyClientTransit, mainTransitFields]

theorem clientDrivingDuration_applyClientTransit (r : CommuteData) (t : TransitData) :
    (applyClientTransit r t).clientDrivingDuration = r.clientDrivingDuration := by
  rcases t with ⟨routes⟩
  cases routes with
  | nil => simp [applyClientTransit]
  | cons route rest =>
    rcases route with ⟨legs⟩
    cases legs <;> simp [applyClientTransit]

/-- When an employee has no truthy client-office coordinates, the whole
client section of `computeEmployee` is skipped and every client field stays
unresolved. -/
theorem computeEmployee_no_client (e : Employee) (resp : Responses)
    (hlat : e.clientOfficeLat = none) :
    clientFields (computeEmployee e resp) = (none, none, none, none, none) := by
  rw [computeEmployee]
  cases hd : resp.driving with
  | throw => simp [emptyCommute, clientFields]
  | ok d =>
    have hcond : jsTruthyNum e.clientOfficeLat = false := by
      rw [hlat]; rfl
    simp only [hcond, Bool.false_and, Bool.false_eq_true, if_false]
    cases ht : resp.transit with
    | throw =>
      rw [clientFields_applyDriving]
      simp [emptyCommute, clientFields]
    | ok t =>
      rw [clientFields_applyTransit, clientFields_applyDriving]
      simp [emptyCommute, clientFields]

/-- C6: a roster row whose third (client office) field is empty or absent
produces an employee with no client-office address; after any geocoding
outcome that keeps the employee, both client-office coordinates are still
unresolved, and the commute record computed for that employee has every
client-office field unresolved - the client-office section never appears at
any point of the pipeline. -/
theorem C6_empty_client_field_never_client_data
    (lines : List String) (i : Nat) (row : String) (e geocoded : Employee)
    (o : GeocodeOutcome) (resp : Responses)
    (hrow : (keptRows lines).get? i = some row)
    (hthird : csvField (jsSplit ',' row) 2 = none ∨
      csvField (jsSplit ',' row) 2 = some "")
    (he : (parseEmployees lines).get? i = some e)
    (hg : geocodeOne e o = some geocoded) :
    e.clientOfficeAddress = none ∧
      geocoded.clientOfficeLat = none ∧ geocoded.clientOfficeLng = none ∧
      clientFields (computeEmployee geocoded resp) = (none, none, none, none, none) := by
  rw [parseEmployees, List.get?_map, List.get?_enum, hrow] at he
  simp only [Option.map_some', Option.some.injEq] at he
  have hclientAddr : e.clientOfficeAddress = none := by
    rw [← he]
    simp only
    rcases hthird with h3 | h3 <;> rw [h3] <;> rfl
  have hclientLat : e.clientOfficeLat = none := by
    rw [← he]
  have hclientLng : e.clientOfficeLng = none := by
    rw [← he]
  have hgeo : geocoded.clientOfficeLat = none ∧ geocoded.clientOfficeLng = none := by
    rw [geocodeOne] at hg
    cases ho : o.home with
    | none => rw [ho] at hg; exact absurd hg (by simp)
    | some c =>
      rw [ho] at hg
      have hfalse : jsTruthyStr e.clientOfficeAddress = false := by
        rw [hclientAddr]; rfl
      rw [hfalse] at hg
      simp only [Bool.false_eq_true, if_false, Option.some.injEq] at hg
      rw [← hg]
      exact ⟨hclientLat, hclientLng⟩
  exact ⟨hclientAddr, hgeo.1, hgeo.2,
    computeEmployee_no_client geocoded resp hgeo.1⟩

/-- A CSV with one data row whose third field is empty, for the C6 witness. -/
def c6Lines : List String := ["address,name,client office", "7 G St,Gil,"]

/-- The employee parsed from the single data row of `c6Lines`. -/
def c6Parsed : Employee := { id := 0, address := "7 G St", name := "Gil" }

/-- A successful home geocode with no client outcome. -/
def c6Geocode : GeocodeOutcome := { home := some (151, -34), client := none }

/-- The geocoded form of `c6Parsed`. -/
def c6Geocoded : Employee :=
  { id := 0, address := "7 G St", name := "Gil", lat := some (-34), lng := some 151 }

/-- Fully successful responses, to show the client section stays absent even
when every call would succeed. -/
def c6Responses : Responses :=
  { driving := .ok ⟨[⟨600, 5000⟩]⟩
    transit := .ok ⟨[⟨[⟨1800, 12000, []⟩]⟩]⟩
    clientDriving := .ok ⟨[⟨300, 2000⟩]⟩
    clientTransit := .ok ⟨[⟨[⟨900, 6000, []⟩]⟩]⟩ }

/-- C6 witness: the theorem applied to the concrete one-row CSV. -/
theorem C6_empty_client_field_never_client_data_witness :
    c6Parsed.clientOfficeAddress = none ∧
      c6Geocoded.clientOfficeLat = none ∧ c6Geocoded.clientOfficeLng = none ∧
      clientFields (computeEmployee c6Geocoded c6Responses) =
        (none, none, none, none, none) :=
  C6_empty_client_field_never_client_data c6Lines 0 "7 G St,Gil," c6Parsed
    c6Geocoded c6Geocode c6Responses (by decide) (by decide) (by decide) (by decide)

/-- A transit response with zero itineraries leaves the record unchanged. -/
theorem applyTransit_nil (r : CommuteData) : applyTransit r ⟨[]⟩ = r := rfl

/-- C7: when the transit call of an employee throws (failure, timeout,
non-2xx) or returns zero itineraries, the computed record has unresolved
transit duration, distance and summary; no exception escapes -
`computeEmployee` always returns a record - the client-office leg is still
computed from its own responses (shown for the driving leg to the client
office), and every other employee still gets a result record. -/
theorem C7_transit_failure_stays_local (e : Employee) (d : DrivingData)
    (t ct : FetchResult TransitData) (cd : FetchResult DrivingData)
    (ht : t = FetchResult.throw ∨
      ∃ td, t = FetchResult.ok td ∧ td.routes = []) :
    mainTransitFields (computeEmployee e (Responses.mk (.ok d) t cd ct)) =
        (none, none, none) ∧
      (∀ route rest, cd = FetchResult.ok ⟨route :: rest⟩ →
        (jsTruthyNum e.clientOfficeLat && jsTruthyNum e.clientOfficeLng) = true →
        (computeEmployee e (Responses.mk (.ok d) t cd ct)).clientDrivingDuration =
          some ((jsRound (route.duration / 60) : ℤ) : ℚ)) ∧
      (∀ employeeList resp,
        (calcResults employeeList resp).length =
          (employeesWithCoords employeeList).length) := by
  have hlenAll : ∀ (employeeList : List Employee) (resp : Nat → Responses),
      (calcResults employeeList resp).length =
        (employeesWithCoords employeeList).length :=
    fun l r => by rw [calcResults, List.length_map]
  have hmainD : mainTransitFields (applyDriving (emptyCommute e) d) =
      (none, none, none) := by
    rw [mainTransitFields_applyDriving]
    rfl
  have hnil : t = FetchResult.ok ⟨[]⟩ ∨ t = FetchResult.throw := by
    rcases ht with h | ⟨td, h, hroutes⟩
    · exact Or.inr h
    · rcases td with ⟨routes⟩
      simp only at hroutes
      subst hroutes
      exact Or.inl h
  have main : ∀ t2 : FetchResult TransitData,
      (t2 = FetchResult.ok ⟨[]⟩ ∨ t2 = FetchResult.throw) →
      mainTransitFields (computeEmployee e (Responses.mk (.ok d) t2 cd ct)) =
          (none, none, none) ∧
        (∀ route rest, cd = FetchResult.ok ⟨route :: rest⟩ →
          (jsTruthyNum e.clientOfficeLat && jsTruthyNum e.clientOfficeLng) = true →
          (computeEmployee e (Responses.mk (.ok d) t2 cd ct)).clientDrivingDuration =
            some ((jsRound (route.duration / 60) : ℤ) : ℚ)) := by
    intro t2 h2
    have hsplit : ∀ p : Prop, ∀ hp : Decidable p, True := fun _ _ => trivial
    rcases h2 with h2 | h2 <;> subst h2 <;> constructor
    · by_cases hcond :
        (jsTruthyNum e.clientOfficeLat && jsTruthyNum e.clientOfficeLng) = true
      · cases cd with
        | throw =>
          simp only [computeEmployee, applyTransit_nil, if_pos hcond]
          exact hmainD
        | ok cdd =>
          cases ct with
          | throw =>
            simp only [computeEmployee, applyTransit_nil, if_pos hcond]
            rw [mainTransitFields_applyClientDriving]
            exact hmainD
          | ok ctd =>
            simp only [computeEmployee, applyTransit_nil, if_pos hcond]
            rw [mainTransitFields_applyClientTransit,
              mainTransitFields_applyClientDriving]
            exact hmainD
      · simp only [computeEmployee, applyTransit_nil, if_neg hcond]
        exact hmainD
    · intro route rest hcd hcond
      subst hcd
      cases ct with
      | throw =>
        simp only [computeEmployee, applyTransit_nil, if_pos hcond]
        rfl
      | ok ctd =>
        simp only [computeEmployee, applyTransit_nil, if_pos hcond]
        rw [clientDrivingDuration_applyClientTransit]
        rfl
    · by_cases hcond :
        (jsTruthyNum e.clientOfficeLat && jsTruthyNum e.clientOfficeLng) = true
      · cases cd with
        | throw =>
          simp only [computeEmployee, if_pos hcond]
          exact hmainD
        | ok cdd =>
          cases ct with
          | throw =>
            simp only [computeEmployee, if_pos hcond]
            rw [mainTransitFields_applyClientDriving]
            exact hmainD
          | ok ctd =>
            simp only [computeEmployee, if_pos hcond]
            rw [mainTransitFields_applyClientTransit,
              mainTransitFields_applyClientDriving]
            exact hmainD
      · simp only [computeEmployee, if_neg hcond]
        exact hmainD
    · intro route rest hcd hcond
      subst hcd
      cases ct with
      | throw =>
        simp only [computeEmployee, if_pos hcond]
        rfl
      | ok ctd =>
        simp only [computeEmployee, if_pos hcond]
        rw [clientDrivingDuration_applyClientTransit]
        rfl
  exact ⟨(main t hnil).1, (main t hnil).2, hlenAll⟩

/-- An employee with truthy client-office coordinates, for the C7 witness. -/
def c7Employee : Employee :=
  { id := 0, address := "9 H St", name := "H", lat := some (-34), lng := some 151,
    clientOfficeAddress := some "2 K St", clientOfficeLat := some (-33),
    clientOfficeLng := some 150 }

/-- C7 responses: a transit response with zero itineraries, a client-office
driving response with one route, a client transit call that throws. -/
def c7Responses : Responses :=
  { driving := .ok ⟨[]⟩, transit := .ok ⟨[]⟩,
    clientDriving := .ok ⟨[⟨600, 3000⟩]⟩, clientTransit := .throw }

/-- C7 witness: under a zero-itinerary transit response, the concrete record
has every transit field unresolved while the client-office driving leg still
resolves to its 10 minute duration. -/
theorem C7_transit_failure_stays_local_witness :
    mainTransitFields (computeEmployee c7Employee c7Responses) =
        (none, none, none) ∧
      (computeEmployee c7Employee c7Responses).clientDrivingDuration = some 10 := by
  have h := C7_transit_failure_stays_local c7Employee ⟨[]⟩ (.ok ⟨[]⟩) .throw
    (.ok ⟨[⟨600, 3000⟩]⟩) (Or.inr ⟨⟨[]⟩, rfl, rfl⟩)
  refine ⟨h.1, ?_⟩
  have h2 := h.2.1 ⟨600, 3000⟩ [] rfl (by decide)
  exact h2.trans (by norm_num [jsRound])

/-- Stated from the words of the spec, for comparison with
`buildTransitSummary`: keep, in order, exactly the transit-mode steps that
carry transit line details, render each as
`<line> (<departure stop> → <arrival stop>)` with the short line name falling
back to the full name, and comma-join; an empty rendering means no summary. -/
def specTransitSummary (steps : List TransitStep) : Option String :=
  let rendered := (steps.filterMap (fun s =>
      if s.travel_mode = "TRANSIT" then s.transit_details else none)).map
    (fun td => jsOrStr td.line_short_name td.line_name ++ " (" ++
      td.departure_stop ++ " → " ++ td.arrival_stop ++ ")")
  if rendered = [] then none else some (jsJoin ", " rendered)

theorem renderStep_ne_empty (td : TransitDetails) : renderStep td ≠ "" := by
  intro h
  have hl := congrArg String.length h
  rw [renderStep] at hl
  simp only [String.length_append] at hl
  have hp : (" (" : String).length = 2 := rfl
  have h0 : ("" : String).length = 0 := rfl
  rw [hp, h0] at hl
  omega

theorem jsJoin_cons_ne_empty (a : String) (l : List String) (ha : a ≠ "") :
    jsJoin ", " (a :: l) ≠ "" := by
  cases l with
  | nil => simpa [jsJoin] using ha
  | cons b t =>
    intro h
    have h2 : a ++ ", " ++ jsJoin ", " (b :: t) = "" := h
    have hl := congrArg String.length h2
    simp only [String.length_append] at hl
    have hp : (", " : String).length = 2 := rfl
    have h0 : ("" : String).length = 0 := rfl
    rw [hp, h0] at hl
    omega

theorem kept_eq_rendered (steps : List TransitStep) :
    ((((steps.filter (fun s => s.travel_mode == "TRANSIT")).map
        (fun s => s.transit_details.map renderStep)).filterMap id).filter
      (fun x => x != "")) =
      (steps.filterMap (fun s =>
        if s.travel_mode = "TRANSIT" then s.transit_details else none)).map
        (fun td => jsOrStr td.line_short_name td.line_name ++ " (" ++
          td.departure_stop ++ " → " ++ td.arrival_stop ++ ")") := by
  rw [List.filterMap_map]
  simp only [Function.id_comp]
  induction steps with
  | nil => rfl
  | cons s rest ih =>
    by_cases hmode : s.travel_mode = "TRANSIT"
    · cases hdet : s.transit_details with
      | none =>
        simp only [List.filter_cons, List.filterMap_cons, hmode, hdet,
          beq_iff_eq, if_true, Option.map_none']
        exact ih
      | some td =>
        have hne2 : ((jsOrStr td.line_short_name td.line_name ++ " (" ++
            td.departure_stop ++ " → " ++ td.arrival_stop ++ ")") != "") = true := by
          have h := renderStep_ne_empty td
          rw [renderStep] at h
          simpa using h
        simp only [List.filter_cons, List.filterMap_cons, List.map_cons, hmode,
          hdet, beq_iff_eq, if_true, Option.map_some', renderStep, hne2]
        exact congrArg (List.cons _) ih
    · simp only [List.filter_cons, List.filterMap_cons, hmode, beq_iff_eq,
        if_false]
      exact ih

/-- The code pipeline for the step summary computes exactly the spec-side
summary. -/
theorem buildTransitSummary_eq_spec (steps : List TransitStep) :
    buildTransitSummary steps = specTransitSummary steps := by
  rw [buildTransitSummary, specTransitSummary]
  simp only [kept_eq_rendered]
  cases hrend : (steps.filterMap (fun s =>
      if s.travel_mode = "TRANSIT" then s.transit_details else none)).map
      (fun td => jsOrStr td.line_short_name td.line_name ++ " (" ++
        td.departure_stop ++ " → " ++ td.arrival_stop ++ ")") with
  | nil => rfl
  | cons a t =>
    have hmem : a ∈ (steps.filterMap (fun s =>
        if s.travel_mode = "TRANSIT" then s.transit_details else none)).map
        (fun td => jsOrStr td.line_short_name td.line_name ++ " (" ++
          td.departure_stop ++ " → " ++ td.arrival_stop ++ ")") := by
      rw [hrend]
      exact List.mem_cons_self a t
    rcases List.mem_map.mp hmem with ⟨td, _, hfmt⟩
    have ha : a ≠ "" := by
      rw [← hfmt]
      exact renderStep_ne_empty td
    have hj : jsJoin ", " (a :: t) ≠ "" := jsJoin_cons_ne_empty a t ha
    rw [if_neg hj, if_neg (by simp : ¬(a :: t = []))]

theorem transitSteps_applyClientDriving (r : CommuteData) (d : DrivingData) :
    (applyClientDriving r d).transitSteps = r.transitSteps := by
  rcases d with ⟨routes⟩
  cases routes <;> simp [applyClientDriving]

theorem transitSteps_applyClientTransit (r : CommuteData) (t : TransitData) :
    (applyClientTransit r t).transitSteps = r.transitSteps := by
  rcases t with ⟨routes⟩
  cases routes with
  | nil => simp [applyClientTransit]
  | cons route rest =>
    rcases route with ⟨legs⟩
    cases legs <;> simp [applyClientTransit]

/-- When the transit response has a first itinerary with a first leg, the
transit section stores the summary built from the steps of that leg. -/
theorem applyTransit_steps (r : CommuteData) (t : TransitData)
    (route : TransitRoute) (leg : TransitLeg)
    (h1 : t.routes.head? = some route) (h2 : route.legs.head? = some leg) :
    (applyTransit r t).transitSteps = buildTransitSummary leg.steps := by
  rcases t with ⟨routes⟩
  cases routes with
  | nil => exact absurd h1 (by simp)
  | cons rt rest =>
    have hre : rt = route := by simpa using h1
    subst hre
    rcases rt with ⟨legs⟩
    cases legs with
    | nil => exact absurd h2 (by simp)
    | cons lg lrest =>
      have hle : lg = leg := by simpa using h2
      subst hle
      rfl

/-- C8: for a transit response with at least one itinerary whose first
itinerary has a first leg, the stored transit summary is the spec-side
summary of that leg's steps: in order, only the transit-mode steps carrying
transit line details, each rendered as
`<line> (<departure stop> → <arrival stop>)` with the short line name falling
back to the full name, comma-joined; detail-less steps are skipped. -/
theorem C8_transit_summary_from_first_leg (e : Employee) (d : DrivingData)
    (t : TransitData) (cd : FetchResult DrivingData)
    (ct : FetchResult TransitData) (route : TransitRoute) (leg : TransitLeg)
    (h1 : t.routes.head? = some route) (h2 : route.legs.head? = some leg) :
    (computeEmployee e (Responses.mk (.ok d) (.ok t) cd ct)).transitSteps =
      specTransitSummary leg.steps := by
  have hsteps : (applyTransit (applyDriving (emptyCommute e) d) t).transitSteps =
      buildTransitSummary leg.steps :=
    applyTransit_steps (applyDriving (emptyCommute e) d) t route leg h1 h2
  have key : (computeEmployee e (Responses.mk (.ok d) (.ok t) cd ct)).transitSteps =
      (applyTransit (applyDriving (emptyCommute e) d) t).transitSteps := by
    by_cases hcond :
      (jsTruthyNum e.clientOfficeLat && jsTruthyNum e.clientOfficeLng) = true
    · cases cd with
      | throw => simp only [computeEmployee, if_pos hcond]
      | ok cdd =>
        cases ct with
        | throw =>
          simp only [computeEmployee, if_pos hcond]
          rw [transitSteps_applyClientDriving]
        | ok ctd =>
          simp only [computeEmployee, if_pos hcond]
          rw [transitSteps_applyClientTransit, transitSteps_applyClientDriving]
    · simp only [computeEmployee, if_neg hcond]
  rw [key, hsteps, buildTransitSummary_eq_spec]

/-- An employee with no client office, for the C8 witness. -/
def c8Employee : Employee :=
  { id := 0, address := "4 J St", name := "J", lat := some (-34), lng := some 151 }

/-- Transit details of the single detailed step of the C8 witness. -/
def c8Details : TransitDetails :=
  { line_short_name := some "T1", line_name := "Airport Line",
    departure_stop := "Central", arrival_stop := "Green Square" }

/-- The first leg of the C8 witness response: a walking step, a transit step
with details, and a transit step without details. -/
def c8Leg : TransitLeg :=
  { duration := 1800, distance := 12000,
    steps := [⟨"WALKING", none⟩, ⟨"TRANSIT", some c8Details⟩, ⟨"TRANSIT", none⟩] }

/-- The transit response of the C8 witness. -/
def c8Transit : TransitData := ⟨[⟨[c8Leg]⟩]⟩

/-- C8 witness: the theorem applied to the concrete response, with the
summary evaluated. -/
theorem C8_transit_summary_from_first_leg_witness :
    (computeEmployee c8Employee
        (Responses.mk (.ok ⟨[]⟩) (.ok c8Transit) .throw .throw)).transitSteps =
      some "T1 (Central → Green Square)" := by
  have h := C8_transit_summary_from_first_leg c8Employee ⟨[]⟩ c8Transit .throw
    .throw ⟨[c8Leg]⟩ c8Leg rfl rfl
  rw [h]
  decide

/-- An employee on the equator: latitude `0`, longitude `151.2`. Both
coordinates are defined, so the optimizer filter keeps the employee, but the
JS-truthiness summation guard skips it. -/
def c3ZeroLatEmployee : Employee :=
  { id := 0, address := "Equator Is", name := "Z",
    lat := some 0, lng := some (756 / 5) }

/-- An employee at latitude `-33.9`, longitude `151.3`. -/
def c3SouthEmployee : Employee :=
  { id := 1, address := "8 S St", name := "S",
    lat := some (-339 / 10), lng := some (1513 / 10) }

/-- The first employee of the spec example: `(-33.80, 151.20)`. -/
def c3SpecEmployeeA : Employee :=
  { id := 0, address := "A", name := "A",
    lat := some (-169 / 5), lng := some (756 / 5) }

/-- The second employee of the spec example: `(-33.90, 151.30)`. -/
def c3SpecEmployeeB : Employee :=
  { id := 1, address := "B", name := "B",
    lat := some (-339 / 10), lng := some (1513 / 10) }

/-- C3: the optimizer is not the arithmetic mean over every employee with a
resolved coordinate. Over the two resolved coordinates `(0, 151.2)` and
`(-33.9, 151.3)` the code returns longitude `75.65` - the zero-latitude
employee is excluded from both sums by `if (employee.lat && employee.lng)`
but still counted in the divisor - while the mean longitude is `151.25`. On
the zero-free spec example the code does return the exact mean
`(-33.85, 151.25)`, confirming the intent that the truthiness guard breaks. -/
theorem C3_zero_coordinate_skipped_in_sums :
    calculateOptimalLocation [c3ZeroLatEmployee, c3SouthEmployee] =
        Except.ok ((1513 / 20 : ℚ), (-339 / 20 : ℚ)) ∧
      ((1513 / 20 : ℚ)) ≠ ((756 / 5 : ℚ) + 1513 / 10) / 2 ∧
      calculateOptimalLocation [c3SpecEmployeeA, c3SpecEmployeeB] =
        Except.ok ((605 / 4 : ℚ), (-677 / 20 : ℚ)) := by
  refine ⟨?_, by norm_num, ?_⟩
  · rw [calculateOptimalLocation]
    norm_num [c3ZeroLatEmployee, c3SouthEmployee, List.filter, List.foldl,
      jsTruthyNum]
  · rw [calculateOptimalLocation]
    norm_num [c3SpecEmployeeA, c3SpecEmployeeB, List.filter, List.foldl,
      jsTruthyNum]

end OfficePlanner
